import Mathlib

/-!
Verification development for the OrionX Telegram assistant (src/main.py).

The development shallowly embeds the model-selection logic
(choose_available_model, detect_model), the JSON-file history store
(atomic_write_json, load_json_safe, load_history, save_history), the
turn-window projection and the message handler (handle_message), and the
owner-only admin command (cmd_admin).

Modelling conventions:
  - Python strings are Lean String; Python None-or-string attributes are
    Option String; Python truthiness of a string (empty means false) is
    modelled explicitly where the code relies on it.
  - The history file is a FileState: absent (the path does not exist),
    invalid (the file exists but json.load raises), or valid doc (the file
    holds a serialization of the JSON document doc).  The Python standard
    library json codec is external to the repository and is modelled as
    exact: json.load of a file written by json.dump of doc yields doc, and
    a Python dict is a key-unique association list preserving insertion
    order.
  - Remote effects (the generation call, message delivery) are external
    collaborators; their outcomes are passed to the embedded handler as
    explicit parameters (an Except for the generation call, Bool flags for
    write and send success).
-/

set_option autoImplicit false

/-- Substring test helper: does the needle occur at the head of the haystack. -/
def headMatch : List Char → List Char → Bool
  | _, [] => true
  | [], _ :: _ => false
  | h :: hs, n :: ns => h == n && headMatch hs ns

/-- Substring occurrence test on character lists, the semantics of the Python
expression k in nl (an empty needle occurs in every string). -/
def containsSub : List Char → List Char → Bool
  | [], needle => needle.isEmpty
  | h :: t, needle => headMatch (h :: t) needle || containsSub t needle

/-- Characters of a string lowercased, the Python expression name.lower()
restricted to the character-list view. -/
def lowerChars (s : String) : List Char := s.toList.map Char.toLower

/-- Case-insensitive containment used in the preferred pass of
choose_available_model (src/main.py line 92): the keyword k is tested against
nl = name.lower(). -/
def strContainsLower (name k : String) : Bool :=
  containsSub (lowerChars name) k.toList

/-- One descriptor returned by the registry (genai.list_models()), with the
attributes the code reads via getattr: name, model (a secondary name
attribute), supported_generation_methods.  A missing attribute is none. -/
structure ModelDescriptor where
  name : Option String
  model : Option String
  supported_generation_methods : Option (List String)
deriving DecidableEq, Repr

/-- Python `a or b` on optional strings: an absent or empty string is falsy
and falls through to b. -/
def pyOrS (a b : Option String) : Option String :=
  match a with
  | some s => if s = "" then b else some s
  | none => b

/-- One entry of the `available` list built by choose_available_model
(src/main.py lines 79-82): name is
getattr(m, "name", None) or getattr(m, "model", None) or None and methods is
getattr(m, "supported_generation_methods", None) or []. -/
structure Entry where
  name : Option String
  methods : List String
deriving DecidableEq, Repr

/-- Projection of a registry descriptor onto an `available` entry
(src/main.py lines 79-82). -/
def toEntry (d : ModelDescriptor) : Entry :=
  ⟨pyOrS d.name (pyOrS d.model none), d.supported_generation_methods.getD []⟩

/-- Default preferred keywords of choose_available_model
(src/main.py line 77). -/
def preferredKeywordsDefault : List String := ["gemini", "flash", "2.0", "3.0"]

/-- Acceptable-method tuple of the preferred pass (src/main.py line 93). -/
def acceptableMethods : List String :=
  ["generateContent", "chat", "sendMessage", "send_message"]

/-- Preferred pass of choose_available_model (src/main.py lines 86-96):
skip entries with a falsy name, return the first name that contains a
preferred keyword case-insensitively and whose methods meet the acceptable
tuple. -/
def firstPass (kws : List String) : List Entry → Option String
  | [] => none
  | e :: rest =>
    match e.name with
    | none => firstPass kws rest
    | some n =>
      if n = "" then firstPass kws rest
      else
        if kws.any (fun k => strContainsLower n k)
            && acceptableMethods.any (fun m => e.methods.contains m) then
          some n
        else firstPass kws rest

/-- Fallback pass of choose_available_model (src/main.py lines 98-103):
return the first entry with a truthy name whose methods contain
generateContent. -/
def secondPass : List Entry → Option String
  | [] => none
  | e :: rest =>
    match e.name with
    | none => secondPass rest
    | some n =>
      if n = "" then secondPass rest
      else
        if e.methods.contains "generateContent" then some n
        else secondPass rest

/-- choose_available_model (src/main.py lines 77-104): build the `available`
projection, run the preferred pass, then the fallback pass, returning none
when both fail. -/
def choose_available_model (models : List ModelDescriptor)
    (preferred_keywords : List String) : Option String :=
  let available := models.map toEntry
  match firstPass preferred_keywords available with
  | some n => some n
  | none => secondPass available

/-- Failure of detect_model when no model is selectable and no fallback is
configured (the RuntimeError at src/main.py lines 121-124). -/
inductive DetectError where
  | noModelAvailable
deriving DecidableEq, Repr

/-- Candidate list obtained from the registry call in detect_model
(src/main.py lines 107-111): a failing genai.list_models() is treated as the
empty list. -/
def registryModels : Except Unit (List ModelDescriptor) → List ModelDescriptor
  | Except.error _ => []
  | Except.ok ms => ms

/-- detect_model (src/main.py lines 106-124): choose from the registry
candidates; when that yields nothing, use FALLBACK_MODEL when configured,
otherwise raise. -/
def detect_model (registry : Except Unit (List ModelDescriptor))
    (fallback_model : Option String) : Except DetectError String :=
  match choose_available_model (registryModels registry) preferredKeywordsDefault with
  | some s => Except.ok s
  | none =>
    match fallback_model with
    | some f => Except.ok f
    | none => Except.error DetectError.noModelAvailable

/-- JSON documents as produced by the Python standard library json codec
(numbers restricted to integers, which is all this program ever stores). -/
inductive Json where
  | null
  | bool (b : Bool)
  | num (n : Int)
  | str (s : String)
  | arr (items : List Json)
  | obj (entries : List (String × Json))
deriving Repr

/-- State of the history file memory.json: the path may be absent, hold
unparseable bytes, or hold a json.dump serialization of a document. -/
inductive FileState where
  | absent
  | invalid
  | valid (doc : Json)
deriving Repr

/-- load_json_safe (src/main.py lines 62-70): a missing path yields the empty
dict, an unparseable file is caught, logged and yields the empty dict, and a
parseable file yields whatever document json.load produced, unchanged. -/
def load_json_safe : FileState → Json
  | FileState.absent => Json.obj []
  | FileState.invalid => Json.obj []
  | FileState.valid doc => doc

/-- atomic_write_json (src/main.py lines 55-60): the document is written to a
fresh temporary file and renamed over the target with os.replace, so on
success the file holds exactly the new document and on any failure the
target file keeps its previous state (writeOk models whether the write and
rename succeeded). -/
def atomic_write_json (fs : FileState) (data : Json) (writeOk : Bool) : FileState :=
  if writeOk then FileState.valid data else fs

/-- load_history (src/main.py lines 141-142). -/
def load_history (fs : FileState) : Json :=
  load_json_safe fs

/-- save_history (src/main.py lines 144-148): atomic_write_json wrapped in a
try/except that logs and swallows any write failure, so the caller always
continues. -/
def save_history (fs : FileState) (h : Json) (writeOk : Bool) : FileState :=
  atomic_write_json fs h writeOk

/-- One part of a content object of the external chat history, read via
getattr(p, "text", None) (src/main.py line 228). -/
structure TextPart where
  text : Option String
deriving DecidableEq, Repr

/-- One content object of the external chat history, read via
getattr(content, "role", None) and getattr(content, "parts", [])
(src/main.py lines 227, 231). -/
structure Content where
  role : Option String
  parts : List TextPart
deriving DecidableEq, Repr

/-- One stored turn: the projection {role, parts} built by the handler
(src/main.py line 231). -/
structure Turn where
  role : Option String
  parts : List String
deriving DecidableEq, Repr

/-- Python slice l[-n:]: the at-most-n last elements of the list. -/
def lastN {α : Type} (n : Nat) (l : List α) : List α :=
  l.drop (l.length - n)

/-- HISTORY_LIMIT (src/main.py line 49). -/
def HISTORY_LIMIT : Nat := 10

/-- Projection of one content object onto a stored turn (src/main.py
lines 226-231): keep only parts whose text attribute is a truthy string. -/
def projectTurn (c : Content) : Turn :=
  ⟨c.role,
   c.parts.filterMap fun p =>
     match p.text with
     | some t => if t = "" then none else some t
     | none => none⟩

/-- The new_history list built after a successful generation call
(src/main.py lines 224-231): the last HISTORY_LIMIT contents of the chat
history, each projected. -/
def newHistory (chatHistory : List Content) : List Turn :=
  (lastN HISTORY_LIMIT chatHistory).map projectTurn

/-- Serialization of one stored turn as the dict
{"role": role, "parts": parts} that json.dump writes. -/
def encodeTurn (t : Turn) : Json :=
  Json.obj [("role", match t.role with
                     | some r => Json.str r
                     | none => Json.null),
            ("parts", Json.arr (t.parts.map Json.str))]

/-- Serialization of a stored turn list. -/
def encodeTurns (ts : List Turn) : Json :=
  Json.arr (ts.map encodeTurn)

/-- First-occurrence lookup in a dict viewed as an association list. -/
def dictLookup : List (String × Json) → String → Option Json
  | [], _ => none
  | (k, v) :: rest, key => if k = key then some v else dictLookup rest key

/-- Python dict assignment d[key] = v on a key-unique association list:
replace the binding when the key is present, append it otherwise. -/
def dictInsert : List (String × Json) → String → Json → List (String × Json)
  | [], key, v => [(key, v)]
  | (k, w) :: rest, key, v =>
    if k = key then (key, v) :: rest else (k, w) :: dictInsert rest key v

/-- View of a parsed document as a Python dict: histories.get(uid, []) only
exists when load_history returned a dict; any other parsed value raises
AttributeError inside the handler try block (src/main.py line 215). -/
def jsonGetDict : Json → Option (List (String × Json))
  | Json.obj kvs => some kvs
  | _ => none

/-- Python `a or b` where a is an optional string and b a string: the code
response.text or the em-dash placeholder (src/main.py line 237). -/
def pyOrStr (a : Option String) (b : String) : String :=
  match a with
  | some s => if s = "" then b else s
  | none => b

/-- Outcome of the successful external generation call: the full exchanged
history exposed by the chat object and the response text attribute. -/
structure GenChat where
  history : List Content
  responseText : Option String
deriving DecidableEq, Repr

/-- The fixed apologetic reply of the handler except clause
(src/main.py line 241). -/
def ERROR_REPLY : String :=
  "⚠️ Внутренняя ошибка при обращении к ИИ. Попробуйте позже."

/-- handle_message (src/main.py lines 203-241) for one incoming text message
of user uid.  External effects are parameters: genResult is the outcome of
constructing the model, starting the chat and awaiting chat.send_message
(lines 217-221); writeOk is whether atomic_write_json succeeds inside
save_history (line 234); sendOk is whether reading response.text and
delivering the reply succeed (line 237).  The result is the final file state
and the text answered to the user: on any caught failure the fixed
ERROR_REPLY, otherwise response.text or the em-dash placeholder. -/
def handle_message (fs : FileState) (uid : String)
    (genResult : Except Unit GenChat) (writeOk : Bool) (sendOk : Bool) :
    FileState × String :=
  match jsonGetDict (load_history fs) with
  | none => (fs, ERROR_REPLY)
  | some histories =>
    match genResult with
    | Except.error _ => (fs, ERROR_REPLY)
    | Except.ok chat =>
      let nh := newHistory chat.history
      let histories2 := dictInsert histories uid (encodeTurns nh)
      let fs2 := save_history fs (Json.obj histories2) writeOk
      if sendOk then (fs2, pyOrStr chat.responseText "—")
      else (fs2, ERROR_REPLY)

/-- Stored turn list of one user in a file state: defined when the file
holds a dict binding the user key. -/
def storedHistoryOf (fs : FileState) (uid : String) : Option Json :=
  match fs with
  | FileState.valid (Json.obj kvs) => dictLookup kvs uid
  | _ => none

/-- Python len() on a parsed JSON value: defined for dicts, lists and
strings, raising TypeError otherwise. -/
def pyLen : Json → Option Nat
  | Json.obj kvs => some kvs.length
  | Json.arr xs => some xs.length
  | Json.str s => some s.length
  | _ => none

/-- cmd_admin (src/main.py lines 192-198): a sender other than MY_ID gets an
early return with no answer and no history access; the owner gets the
statistics message (len of a non-dict document would raise, hence the
Except). -/
def cmd_admin (selected_model : String) (my_id sender_id : Int)
    (fs : FileState) : Except Unit (FileState × Option String) :=
  if sender_id ≠ my_id then Except.ok (fs, none)
  else
    match pyLen (load_history fs) with
    | some n =>
      Except.ok (fs, some ("Статей пользователей в памяти: " ++ toString n
                           ++ "\nМодель: " ++ selected_model))
    | none => Except.error ()

/-- Guard of the preferred pass as a predicate on entries, read off the code
condition at src/main.py lines 89-94. -/
def preferredMatch (kws : List String) (e : Entry) : Bool :=
  match e.name with
  | none => false
  | some n =>
    if n = "" then false
    else kws.any (fun k => strContainsLower n k)
          && acceptableMethods.any (fun m => e.methods.contains m)

/-- Guard of the fallback pass as a predicate on entries, read off the code
condition at src/main.py line 101. -/
def fallbackMatch (e : Entry) : Bool :=
  match e.name with
  | none => false
  | some n =>
    if n = "" then false
    else e.methods.contains "generateContent"

/-- The preferred pass returns the name of the first entry satisfying its
guard. -/
theorem firstPass_eq_find (kws : List String) (l : List Entry) :
    firstPass kws l = (l.find? (preferredMatch kws)).bind Entry.name := by
  induction l with
  | nil => rfl
  | cons e rest ih =>
    cases hn : e.name with
    | none =>
      have hp : preferredMatch kws e = false := by simp [preferredMatch, hn]
      simp [firstPass, hn, List.find?_cons, hp, ih]
    | some n =>
      by_cases hz : n = ""
      · have hp : preferredMatch kws e = false := by
          simp [preferredMatch, hn, hz]
        simp [firstPass, hn, hz, List.find?_cons, hp, ih]
      · cases hc : (kws.any (fun k => strContainsLower n k)
            && acceptableMethods.any (fun m => e.methods.contains m)) with
        | true =>
          have hp : preferredMatch kws e = true := by
            simp only [preferredMatch, hn, if_neg hz, hc]
          simp only [firstPass, hn]
          rw [if_neg hz, if_pos hc, List.find?_cons_of_pos _ hp]
          simp [hn]
        | false =>
          have hp : preferredMatch kws e = false := by
            simp only [preferredMatch, hn, if_neg hz, hc]
          have hc' : ¬((kws.any fun k => strContainsLower n k)
              && (acceptableMethods.any fun m => e.methods.contains m)) = true := by
            rw [hc]
            exact Bool.false_ne_true
          simp only [firstPass, hn]
          rw [if_neg hz, if_neg hc', List.find?_cons_of_neg _ (by simp [hp]), ih]

/-- The fallback pass returns the name of the first entry satisfying its
guard. -/
theorem secondPass_eq_find (l : List Entry) :
    secondPass l = (l.find? fallbackMatch).bind Entry.name := by
  induction l with
  | nil => rfl
  | cons e rest ih =>
    cases hn : e.name with
    | none =>
      have hp : fallbackMatch e = false := by simp [fallbackMatch, hn]
      simp [secondPass, hn, List.find?_cons, hp, ih]
    | some n =>
      by_cases hz : n = ""
      · have hp : fallbackMatch e = false := by simp [fallbackMatch, hn, hz]
        simp [secondPass, hn, hz, List.find?_cons, hp, ih]
      · cases hc : e.methods.contains "generateContent" with
        | true =>
          have hp : fallbackMatch e = true := by
            simp only [fallbackMatch, hn, if_neg hz, hc]
          simp only [secondPass, hn]
          rw [if_neg hz, if_pos hc, List.find?_cons_of_pos _ hp]
          simp [hn]
        | false =>
          have hp : fallbackMatch e = false := by
            simp only [fallbackMatch, hn, if_neg hz, hc]
          have hc' : ¬(e.methods.contains "generateContent") = true := by
            rw [hc]
            exact Bool.false_ne_true
          simp only [secondPass, hn]
          rw [if_neg hz, if_neg hc', List.find?_cons_of_neg _ (by simp [hp]), ih]

/-- C1 (amended): for every candidate list in which at least one entry has a
truthy resolved name containing a preferred keyword case-insensitively and
methods meeting the acceptable tuple {generateContent, chat, sendMessage,
send_message}, choose_available_model returns the name of the first such
entry in input order, with no ranking among later matches. -/
theorem choose_preferred_first (kws : List String) (models : List ModelDescriptor)
    (h : ∃ e ∈ models.map toEntry, preferredMatch kws e = true) :
    ∃ e, (models.map toEntry).find? (preferredMatch kws) = some e ∧
      choose_available_model models kws = e.name := by
  obtain ⟨e, he, hp⟩ := h
  have hs : ((models.map toEntry).find? (preferredMatch kws)).isSome := by
    rw [List.find?_isSome]
    exact ⟨e, he, hp⟩
  obtain ⟨e', he'⟩ := Option.isSome_iff_exists.mp hs
  refine ⟨e', he', ?_⟩
  have hfp : firstPass kws (models.map toEntry) = e'.name := by
    rw [firstPass_eq_find, he']
    rfl
  have hpe' : preferredMatch kws e' = true := List.find?_some he'
  have hname : ∃ n, e'.name = some n := by
    cases hn : e'.name with
    | none => simp [preferredMatch, hn] at hpe'
    | some n => exact ⟨n, rfl⟩
  obtain ⟨n, hn⟩ := hname
  simp only [choose_available_model]
  rw [hfp, hn]

/-- Descriptor used to witness the amended C1 selection law. -/
def dW : ModelDescriptor := ⟨some "flash-1", none, some ["generateContent"]⟩

/-- Witness for the amended C1 law at a concrete one-element candidate
list. -/
theorem choose_preferred_first_witness :
    choose_available_model [dW] preferredKeywordsDefault = some "flash-1" := by
  obtain ⟨e, hfind, hch⟩ :=
    choose_preferred_first preferredKeywordsDefault [dW] (by decide)
  have he : ([dW].map toEntry).find? (preferredMatch preferredKeywordsDefault)
      = some (toEntry dW) := by decide
  rw [he] at hfind
  rw [hch, (Option.some.inj hfind).symm]
  rfl

/-- Acceptable-method set as claim C1 states it (spec section 4.1 pass 1):
three methods, without the snake-case send_message the code also accepts. -/
def specAcceptableMethods : List String := ["generateContent", "chat", "sendMessage"]

/-- Modelled from the claim C1 wording: an entry with a non-empty name that
case-insensitively contains a preferred keyword and whose methods intersect
the three-element acceptable set of the claim. -/
def specPreferredMatch (kws : List String) (e : Entry) : Bool :=
  match e.name with
  | none => false
  | some n =>
    if n = "" then false
    else kws.any (fun k => strContainsLower n k)
          && specAcceptableMethods.any (fun m => e.methods.contains m)

/-- Candidate matching only through send_message. -/
def dA : ModelDescriptor := ⟨some "gemini-a", none, some ["send_message"]⟩

/-- Candidate matching the claim acceptable-method set. -/
def dB : ModelDescriptor := ⟨some "gemini-b", none, some ["chat"]⟩

/-- C1 counterexample: on the list [dA, dB] the first (and only) entry
matching the claim predicate with the three-method acceptable set is the
entry of dB, whose name is gemini-b, yet choose_available_model returns
gemini-a, because the code also accepts the method send_message, so the
claim as stated is false. -/
theorem choose_preferred_first_cex :
    ([dA, dB].map toEntry).find? (specPreferredMatch preferredKeywordsDefault)
        = some (toEntry dB) ∧
    (toEntry dB).name = some "gemini-b" ∧
    choose_available_model [dA, dB] preferredKeywordsDefault = some "gemini-a" ∧
    (some "gemini-a" : Option String) ≠ some "gemini-b" := by decide

/-- C3 (amended): when no entry satisfies the preferred-pass guard and at
least one entry has a truthy resolved name with generateContent among its
methods, choose_available_model returns the name of the first such entry in
input order. -/
theorem choose_fallback_first (kws : List String) (models : List ModelDescriptor)
    (h1 : ∀ e ∈ models.map toEntry, preferredMatch kws e = false)
    (h2 : ∃ e ∈ models.map toEntry, fallbackMatch e = true) :
    ∃ e, (models.map toEntry).find? fallbackMatch = some e ∧
      choose_available_model models kws = e.name := by
  have hfp : firstPass kws (models.map toEntry) = none := by
    rw [firstPass_eq_find]
    have hnone : (models.map toEntry).find? (preferredMatch kws) = none :=
      List.find?_eq_none.mpr (fun x hx => by simp [h1 x hx])
    rw [hnone]
    rfl
  obtain ⟨e, he, hp⟩ := h2
  have hs : ((models.map toEntry).find? fallbackMatch).isSome := by
    rw [List.find?_isSome]
    exact ⟨e, he, hp⟩
  obtain ⟨e', he'⟩ := Option.isSome_iff_exists.mp hs
  refine ⟨e', he', ?_⟩
  have hsp : secondPass (models.map toEntry) = e'.name := by
    rw [secondPass_eq_find, he']
    rfl
  simp only [choose_available_model]
  rw [hfp, hsp]

/-- Modelled from the claim C3 wording: a descriptor whose supported-methods
set contains generateContent, with no condition on its name. -/
def specFallbackMatch (d : ModelDescriptor) : Bool :=
  (d.supported_generation_methods.getD []).contains "generateContent"

/-- Candidate with an empty name supporting generateContent. -/
def dC : ModelDescriptor := ⟨some "", none, some ["generateContent"]⟩

/-- Candidate with a keyword-free name supporting generateContent. -/
def dD : ModelDescriptor := ⟨some "plainmodel", none, some ["generateContent"]⟩

/-- C3 counterexample: on the list [dC, dD] no entry matches the preferred
pass, the first descriptor whose supported-methods set contains
generateContent is dC with the empty name, yet choose_available_model
returns plainmodel, because the fallback pass of the code skips falsy
names, so the claim as stated (first such descriptor regardless of name) is
false. -/
theorem choose_fallback_first_cex :
    (∀ e ∈ [dC, dD].map toEntry,
        preferredMatch preferredKeywordsDefault e = false) ∧
    [dC, dD].find? specFallbackMatch = some dC ∧
    dC.name = some "" ∧
    choose_available_model [dC, dD] preferredKeywordsDefault = some "plainmodel" ∧
    (some "plainmodel" : Option String) ≠ some "" := by decide

/-- Witness for the amended C3 law at a concrete one-element candidate
list. -/
theorem choose_fallback_first_witness :
    choose_available_model [dD] preferredKeywordsDefault = some "plainmodel" := by
  obtain ⟨e, hfind, hch⟩ :=
    choose_fallback_first preferredKeywordsDefault [dD] (by decide) (by decide)
  have he : ([dD].map toEntry).find? fallbackMatch = some (toEntry dD) := by decide
  rw [he] at hfind
  rw [hch, (Option.some.inj hfind).symm]
  rfl

/-- C4: when the selection passes yield nothing from the registry candidates
(with a failing registry call treated as the empty candidate list, and an
empty candidate list selecting nothing), detect_model returns exactly the
configured fallback string when one is present and otherwise fails with
noModelAvailable. -/
theorem detect_model_exhausted (registry : Except Unit (List ModelDescriptor))
    (fallback : Option String)
    (h : choose_available_model (registryModels registry) preferredKeywordsDefault
        = none) :
    registryModels (Except.error ()) = [] ∧
    choose_available_model [] preferredKeywordsDefault = none ∧
    detect_model registry fallback =
      (match fallback with
       | some f => Except.ok f
       | none => Except.error DetectError.noModelAvailable) := by
  refine ⟨rfl, rfl, ?_⟩
  simp only [detect_model, h]

/-- Witness for C4 at the concrete failing-registry input, with and without
a configured fallback. -/
theorem detect_model_exhausted_witness :
    detect_model (Except.error ()) (some "gemini-2.0-flash")
        = Except.ok "gemini-2.0-flash" ∧
    detect_model (Except.error ()) none
        = Except.error DetectError.noModelAvailable :=
  ⟨(detect_model_exhausted (Except.error ()) (some "gemini-2.0-flash") rfl).2.2,
   (detect_model_exhausted (Except.error ()) none rfl).2.2⟩

/-- C5: the history load never fails its caller: on a nonexistent backing
file it returns the empty mapping, and on a backing file whose contents are
not valid JSON it returns the empty mapping (the embedding is a total
function because every exception of the open and parse is caught at
src/main.py lines 65-70). -/
theorem load_history_total :
    load_history FileState.absent = Json.obj [] ∧
    load_history FileState.invalid = Json.obj [] :=
  ⟨rfl, rfl⟩

/-- C8: round-trip of the store under no concurrent writers: saving the
mapping returned by load_history with a succeeding write and loading again
yields the identical mapping, from every initial file state. -/
theorem store_roundtrip (fs : FileState) :
    load_history (save_history fs (load_history fs) true) = load_history fs := by
  cases fs <;> rfl

/-- Python dict assignment followed by lookup of the same key yields the
assigned value. -/
theorem dictLookup_insert (m : List (String × Json)) (k : String) (v : Json) :
    dictLookup (dictInsert m k v) k = some v := by
  induction m with
  | nil => simp [dictInsert, dictLookup]
  | cons kv rest ih =>
    obtain ⟨k', w⟩ := kv
    by_cases hk : k' = k
    · simp [dictInsert, dictLookup, hk]
    · simp [dictInsert, dictLookup, hk, ih]

/-- C2: after a successful generation call on a parseable dict store with a
succeeding save, the stored history of the user is replaced by exactly the
projection of the chronologically-last at-most-HISTORY_LIMIT turns of the
full chat history, the stored turn count is at most HISTORY_LIMIT, and every
retained part is a non-empty text segment. -/
theorem turn_window_update (fs : FileState) (uid : String) (chat : GenChat)
    (hmap : List (String × Json)) (sendOk : Bool)
    (h : jsonGetDict (load_history fs) = some hmap) :
    storedHistoryOf (handle_message fs uid (Except.ok chat) true sendOk).1 uid
        = some (encodeTurns (newHistory chat.history)) ∧
    (newHistory chat.history).length ≤ HISTORY_LIMIT ∧
    ∀ t ∈ newHistory chat.history, ∀ s ∈ t.parts, s ≠ "" := by
  refine ⟨?_, ?_, ?_⟩
  · have h1 : (handle_message fs uid (Except.ok chat) true sendOk).1
        = FileState.valid (Json.obj
            (dictInsert hmap uid (encodeTurns (newHistory chat.history)))) := by
      simp only [handle_message, h]
      cases sendOk <;> rfl
    rw [h1]
    simp only [storedHistoryOf]
    exact dictLookup_insert hmap uid _
  · simp only [newHistory, List.length_map, lastN, List.length_drop]
    omega
  · intro t ht s hs
    obtain ⟨c, hc, rfl⟩ := List.mem_map.mp ht
    simp only [projectTurn] at hs
    obtain ⟨p, hp, hps⟩ := List.mem_filterMap.mp hs
    cases hpt : p.text with
    | none =>
      rw [hpt] at hps
      cases hps
    | some tt =>
      rw [hpt] at hps
      by_cases hz : tt = ""
      · simp [hz] at hps
      · simp [hz] at hps
        subst hps
        exact hz

/-- History file holding the empty dict. -/
def fs0 : FileState := FileState.valid (Json.obj [])

/-- Outcome of one successful generation exchange: the chat object exposes
one user turn and one model turn, and the response text is ok. -/
def chatC : GenChat :=
  ⟨[⟨some "user", [⟨some "hi"⟩]⟩, ⟨some "model", [⟨some "ok"⟩]⟩], some "ok"⟩

/-- Witness for C2 at the concrete empty store and two-turn exchange. -/
theorem turn_window_update_witness :
    storedHistoryOf (handle_message fs0 "42" (Except.ok chatC) true true).1 "42"
        = some (encodeTurns (newHistory chatC.history)) :=
  (turn_window_update fs0 "42" chatC [] true rfl).1

/-- C6 (amended): the handler fails soft: a failing generation call yields
the fixed apologetic error string with the file state unchanged (the save
runs only after the generation call succeeds), and a failure in a step after
the save also yields the error string (though the saved update persists). -/
theorem handle_message_fail_soft (fs : FileState) (uid : String)
    (writeOk sendOk : Bool) (chat : GenChat) :
    handle_message fs uid (Except.error ()) writeOk sendOk = (fs, ERROR_REPLY) ∧
    (handle_message fs uid (Except.ok chat) writeOk false).2 = ERROR_REPLY := by
  constructor
  · cases hd : jsonGetDict (load_history fs) <;> simp [handle_message, hd]
  · cases hd : jsonGetDict (load_history fs) <;> simp [handle_message, hd]

/-- C6 counterexample: the generation call succeeds, the save succeeds, and
the step after the save (reading response.text and delivering the reply)
fails: the handler answers the fixed apologetic error string, yet the stored
history for the user has changed, so the claim that a failure of the
generation call or of any later step leaves the stored history unchanged is
false. -/
theorem handle_message_atomic_cex :
    (handle_message fs0 "42" (Except.ok chatC) true false).2 = ERROR_REPLY ∧
    (handle_message fs0 "42" (Except.ok chatC) true false).1 ≠ fs0 := by
  constructor
  · rfl
  · intro hEq
    have h2 : (handle_message fs0 "42" (Except.ok chatC) true false).1
        = FileState.valid (Json.obj
            [("42", encodeTurns (newHistory chatC.history))]) := rfl
    rw [h2] at hEq
    simp [fs0] at hEq

/-- C7 (amended): a filesystem write failure while saving the history is
caught and logged inside save_history and suppressed: the handler proceeds,
the file keeps its previous state, and the user receives the normal model
reply rather than the fixed error message. -/
theorem save_failure_swallowed (fs : FileState) (uid : String) (chat : GenChat)
    (hmap : List (String × Json))
    (h : jsonGetDict (load_history fs) = some hmap) :
    handle_message fs uid (Except.ok chat) false true
        = (fs, pyOrStr chat.responseText "—") := by
  simp [handle_message, h, save_history, atomic_write_json]

/-- Witness for the amended C7 at the concrete empty store: the reply is the
model answer and the file is untouched. -/
theorem save_failure_swallowed_witness :
    handle_message fs0 "42" (Except.ok chatC) false true = (fs0, "ok") :=
  save_failure_swallowed fs0 "42" chatC [] rfl

/-- C7 counterexample: with a failing write and everything else succeeding,
the handler answers the normal model reply ok, which is not the fixed
user-facing error message, so the claim that a filesystem write failure is
converted to the fixed user-facing message is false. -/
theorem save_failure_cex :
    handle_message fs0 "42" (Except.ok chatC) false true = (fs0, "ok") ∧
    ("ok" : String) ≠ ERROR_REPLY := by
  constructor
  · rfl
  · decide

/-- C9: the admin command invoked by a non-owner identifier returns early:
no reply is produced, the file state is unchanged and the history store is
not consulted. -/
theorem cmd_admin_non_owner (selected_model : String) (my_id sender_id : Int)
    (fs : FileState) (h : sender_id ≠ my_id) :
    cmd_admin selected_model my_id sender_id fs = Except.ok (fs, none) := by
  simp [cmd_admin, h]

/-- Witness for C9 at a concrete non-owner identifier. -/
theorem cmd_admin_non_owner_witness :
    cmd_admin "gemini-2.0-flash" 6055791149 7 FileState.absent
        = Except.ok (FileState.absent, none) :=
  cmd_admin_non_owner "gemini-2.0-flash" 6055791149 7 FileState.absent (by decide)

/-- C10: load_history performs no schema validation: whatever document
parses is returned unchanged, and a parseable document that is not a dict is
only caught later by the per-message fail-soft handler, which answers the
fixed error reply and leaves the file untouched. -/
theorem load_history_no_validation (j : Json) (uid : String)
    (genResult : Except Unit GenChat) (writeOk sendOk : Bool)
    (h : jsonGetDict j = none) :
    load_history (FileState.valid j) = j ∧
    handle_message (FileState.valid j) uid genResult writeOk sendOk
        = (FileState.valid j, ERROR_REPLY) := by
  refine ⟨rfl, ?_⟩
  simp only [handle_message, load_history, load_json_safe, h]

/-- Witness for C10 at a concrete parseable non-dict document. -/
theorem load_history_no_validation_witness :
    load_history (FileState.valid (Json.str "oops")) = Json.str "oops" ∧
    handle_message (FileState.valid (Json.str "oops")) "1" (Except.error ())
        true true = (FileState.valid (Json.str "oops"), ERROR_REPLY) :=
  load_history_no_validation (Json.str "oops") "1" (Except.error ()) true true rfl
